import Mathlib

/-!
Verification of the Snake game state engine
(`src/snake_game_frontend/src/SnakeGame.js`).

The component keeps its simulation state in React hooks: `snake` (array of
cells, head first), `direction` (a unit vector read through a ref),
`food`, `score`, and `gameOver`.  We embed that state as a structure and the
three mutation entry points — the keydown handler (`setDirection`), the
move-tick effect (`tick`) and `handleRestart` (`restart`) — as functions on
it.  The random source used by `generateFood` (`Math.random`) is modelled as
an explicit stream of cells, and the unbounded reject-and-resample loop is
given explicit fuel, returning `none` when the fuel runs out (matching the
loop simply not having terminated yet).
-/

namespace SnakeGame

/-- A grid cell, the `{ x, y }` objects of the JS code.  Both snake segments
and direction vectors are such pairs, so coordinates are integers. -/
structure Cell where
  x : Int
  y : Int
deriving DecidableEq, Repr

/-- `GRID_SIZE = 16` of the JS code. -/
def GRID_SIZE : Int := 16

/-- `INITIAL_SNAKE` of the JS code: three cells, head first. -/
def INITIAL_SNAKE : List Cell := [⟨8, 8⟩, ⟨7, 8⟩, ⟨6, 8⟩]

/-- `INITIAL_DIRECTION = { x: 1, y: 0 }` of the JS code. -/
def INITIAL_DIRECTION : Cell := ⟨1, 0⟩

/-- The four direction vectors the keydown handler can produce. -/
def dirUp : Cell := ⟨0, -1⟩

/-- Direction produced for ArrowDown / s. -/
def dirDown : Cell := ⟨0, 1⟩

/-- Direction produced for ArrowLeft / a. -/
def dirLeft : Cell := ⟨-1, 0⟩

/-- Direction produced for ArrowRight / d. -/
def dirRight : Cell := ⟨1, 0⟩

/-- `d` is one of the four vectors the keydown handler can request. -/
def IsArrowDir (d : Cell) : Prop :=
  d = dirUp ∨ d = dirDown ∨ d = dirLeft ∨ d = dirRight

instance (d : Cell) : Decidable (IsArrowDir d) := by
  unfold IsArrowDir; infer_instance

/-- The game state held in the component's hooks.  `moveTick` is only a
re-render trigger and carries no simulation information, so it is omitted. -/
structure GameState where
  snake : List Cell
  direction : Cell
  food : Cell
  score : Nat
  gameOver : Bool
deriving DecidableEq, Repr

/-- The occupancy test `snakeArr.some(seg => seg.x === c.x && seg.y === c.y)`
used verbatim in the collision check, the eat check and `generateFood`. -/
def occupies (snakeArr : List Cell) (c : Cell) : Bool :=
  snakeArr.any (fun seg => seg.x == c.x && seg.y == c.y)

/-- The body of `generateFood`'s `while (true)` loop, with the successive
values of `Math.random`-derived candidates supplied by the stream `rng`
starting at index `i`, and explicit `fuel` bounding the number of
iterations we unfold (`none` = the loop has not terminated within `fuel`
iterations). -/
def generateFoodFrom (rng : Nat → Cell) (snakeArr : List Cell) :
    Nat → Nat → Option Cell
  | _, 0 => none
  | i, fuel + 1 =>
    if occupies snakeArr (rng i) then
      generateFoodFrom rng snakeArr (i + 1) fuel
    else
      some (rng i)

/-- `generateFood(snakeArr)` of the JS code: draw candidate cells from the
random stream until one is free of `snakeArr`. -/
def generateFood (rng : Nat → Cell) (snakeArr : List Cell) (fuel : Nat) :
    Option Cell :=
  generateFoodFrom rng snakeArr 0 fuel

/-- Result of one invocation of the move-tick effect, per the spec's
`TransitionResult`. -/
inductive TransitionResult where
  | Moved
  | Ate
  | Crashed
  | Noop
deriving DecidableEq, Repr

/-- `nextHead = { x: head.x + direction.x, y: head.y + direction.y }`
(lines 97–100). -/
def nextHeadOf (head dir : Cell) : Cell :=
  ⟨head.x + dir.x, head.y + dir.y⟩

/-- The collision condition of lines 103–109: `nextHead` off the grid, or
occupying a cell of the full current body (checked against `newSnake`,
which at that point is still a copy of the pre-move snake, tail
included). -/
def crashCond (body : List Cell) (nh : Cell) : Prop :=
  nh.x < 0 ∨ nh.y < 0 ∨ GRID_SIZE ≤ nh.x ∨ GRID_SIZE ≤ nh.y ∨
    occupies body nh = true

instance (body : List Cell) (nh : Cell) : Decidable (crashCond body nh) := by
  unfold crashCond; infer_instance

/-- The move-tick effect (lines 93–126 of `SnakeGame.js`): early-return on
`gameOver`; compute `nextHead = head + direction`; crash on boundary or on
occupancy of the full current body; otherwise unshift the head, and either
eat (score + 1, food regenerated over the new snake) or pop the tail.
`none` arises only when `generateFood`'s loop is not given enough fuel. -/
def tick (rng : Nat → Cell) (fuel : Nat) (s : GameState) :
    Option (TransitionResult × GameState) :=
  if s.gameOver then
    some (TransitionResult.Noop, s)
  else
    match s.snake with
    | [] => none
    | head :: rest =>
      if crashCond (head :: rest) (nextHeadOf head s.direction) then
        some (TransitionResult.Crashed, { s with gameOver := true })
      else if (nextHeadOf head s.direction).x == s.food.x &&
          (nextHeadOf head s.direction).y == s.food.y then
        match generateFood rng (nextHeadOf head s.direction :: head :: rest) fuel with
        | none => none
        | some f =>
          some (TransitionResult.Ate,
            { s with snake := nextHeadOf head s.direction :: head :: rest,
                     food := f,
                     score := s.score + 1 })
      else
        some (TransitionResult.Moved,
          { s with snake := (nextHeadOf head s.direction :: head :: rest).dropLast })

/-- The keydown handler (lines 56–72): no-op when `gameOver`; a request
opposite to the currently stored direction (`directionRef.current`) is
dropped; otherwise the direction is overwritten immediately. -/
def setDirection (d : Cell) (s : GameState) : GameState :=
  if s.gameOver then s
  else if d.x = -s.direction.x ∧ d.y = -s.direction.y then s
  else { s with direction := d }

/-- `handleRestart` (lines 178–185): reset snake, direction and score,
regenerate food over the initial snake, clear `gameOver`. -/
def restart (rng : Nat → Cell) (fuel : Nat) (s : GameState) :
    Option GameState :=
  match generateFood rng INITIAL_SNAKE fuel with
  | none => none
  | some f =>
    some { snake := INITIAL_SNAKE, direction := INITIAL_DIRECTION,
           food := f, score := 0, gameOver := false }

/-- The state built by the `useState` initializers (lines 36–41), given the
food cell produced by the initial `generateFood(INITIAL_SNAKE)` call. -/
def initialState (f : Cell) : GameState :=
  { snake := INITIAL_SNAKE, direction := INITIAL_DIRECTION,
    food := f, score := 0, gameOver := false }

/-- States reachable from component initialization by any interleaving of
keydown events (with one of the four arrow directions), move ticks and
restarts.  Ticks and restarts are included only when their food generation
terminated (`some`), matching executions of the JS code that return. -/
inductive Reachable : GameState → Prop where
  | start (rng : Nat → Cell) (fuel : Nat) (f : Cell) :
      generateFood rng INITIAL_SNAKE fuel = some f →
      Reachable (initialState f)
  | keydown (d : Cell) (s : GameState) :
      IsArrowDir d → Reachable s → Reachable (setDirection d s)
  | moveTick (rng : Nat → Cell) (fuel : Nat) (s : GameState)
      (r : TransitionResult) (s' : GameState) :
      Reachable s → tick rng fuel s = some (r, s') → Reachable s'
  | restarted (rng : Nat → Cell) (fuel : Nat) (s : GameState)
      (s' : GameState) :
      Reachable s → restart rng fuel s = some s' → Reachable s'

/-- A cell lies on the `GRID_SIZE × GRID_SIZE` board. -/
def InGrid (c : Cell) : Prop :=
  0 ≤ c.x ∧ c.x < GRID_SIZE ∧ 0 ≤ c.y ∧ c.y < GRID_SIZE

instance : DecidablePred InGrid := fun c => by
  unfold InGrid; infer_instance

/-- An explicit enumeration of every cell of the 16 × 16 board, used to
instantiate full-occupancy statements. -/
def fullGrid : List Cell :=
  (List.range 256).map (fun k => ⟨((k % 16 : Nat) : Int), ((k / 16 : Nat) : Int)⟩)

/-- Combined invariant of reachable states: the snake is nonempty and
duplicate-free, the food is off the snake, the snake length exceeds the
score by exactly the initial length 3, and the stored direction is one of
the four unit vectors. -/
def Inv (s : GameState) : Prop :=
  s.snake ≠ [] ∧ s.snake.Nodup ∧ s.food ∉ s.snake ∧
    s.snake.length = s.score + 3 ∧ IsArrowDir s.direction

/-! ### Basic lemmas about the embedded operations -/

/-- The JS per-coordinate occupancy test agrees with list membership. -/
lemma occupies_iff (l : List Cell) (c : Cell) : occupies l c = true ↔ c ∈ l := by
  unfold occupies
  simp only [List.any_eq_true, Bool.and_eq_true, beq_iff_eq]
  constructor
  · rintro ⟨seg, hmem, hx, hy⟩
    obtain ⟨sx, sy⟩ := seg
    obtain ⟨cx, cy⟩ := c
    simp only at hx hy
    subst hx; subst hy; exact hmem
  · intro h
    exact ⟨c, h, rfl, rfl⟩

/-- A cell returned by the resample loop is free of `snakeArr`. -/
lemma generateFoodFrom_not_occupied (rng : Nat → Cell) (l : List Cell) :
    ∀ fuel i c, generateFoodFrom rng l i fuel = some c → occupies l c = false := by
  intro fuel
  induction fuel with
  | zero =>
    intro i c h
    simp [generateFoodFrom] at h
  | succ n ih =>
    intro i c h
    unfold generateFoodFrom at h
    split at h
    · exact ih _ _ h
    · next hfalse =>
      injection h with h'
      subst h'
      exact Bool.not_eq_true _ |>.mp hfalse

/-- Guarantee of `generateFood`: a returned cell never lies on the snake. -/
lemma generateFood_not_mem (rng : Nat → Cell) (l : List Cell) (fuel : Nat)
    (c : Cell) (h : generateFood rng l fuel = some c) : c ∉ l := by
  intro hmem
  have hfree := generateFoodFrom_not_occupied rng l fuel 0 c h
  rw [(occupies_iff l c).mpr hmem] at hfree
  exact Bool.true_eq_false.mp hfree

/-! ### The reachable-state invariant -/

lemma inv_initial (f : Cell) (rng : Nat → Cell) (fuel : Nat)
    (h : generateFood rng INITIAL_SNAKE fuel = some f) :
    Inv (initialState f) := by
  refine ⟨?_, ?_, generateFood_not_mem rng INITIAL_SNAKE fuel f h, ?_, ?_⟩
  · show INITIAL_SNAKE ≠ []
    decide
  · show INITIAL_SNAKE.Nodup
    decide
  · show INITIAL_SNAKE.length = 0 + 3
    decide
  · show IsArrowDir INITIAL_DIRECTION
    decide

lemma inv_setDirection (d : Cell) (s : GameState) (hd : IsArrowDir d)
    (hs : Inv s) : Inv (setDirection d s) := by
  unfold setDirection
  split
  · exact hs
  · split
    · exact hs
    · exact ⟨hs.1, hs.2.1, hs.2.2.1, hs.2.2.2.1, hd⟩

lemma inv_tick (rng : Nat → Cell) (fuel : Nat) (s : GameState)
    (r : TransitionResult) (s' : GameState) (hs : Inv s)
    (h : tick rng fuel s = some (r, s')) : Inv s' := by
  unfold tick at h
  split at h
  · injection h with h'
    injection h' with _ h''
    exact h'' ▸ hs
  · split at h
    · exact absurd h (by simp)
    · next head rest heq =>
      split at h
      · injection h with h'
        injection h' with _ h''
        subst h''
        exact ⟨hs.1, hs.2.1, hs.2.2.1, hs.2.2.2.1, hs.2.2.2.2⟩
      · next hnocrash =>
        have hnotmem : nextHeadOf head s.direction ∉ head :: rest := by
          intro hmem
          exact hnocrash (Or.inr (Or.inr (Or.inr (Or.inr
            ((occupies_iff _ _).mpr hmem)))))
        have hnodup : (nextHeadOf head s.direction :: head :: rest).Nodup :=
          List.nodup_cons.mpr ⟨hnotmem, heq ▸ hs.2.1⟩
        have hlen : (head :: rest).length = s.score + 3 := heq ▸ hs.2.2.2.1
        have hfoodmem : s.food ∉ head :: rest := heq ▸ hs.2.2.1
        split at h
        · next hiseat =>
          split at h
          · exact absurd h (by simp)
          · next f hfood =>
            injection h with h'
            injection h' with _ h''
            subst h''
            refine ⟨by simp, hnodup, ?_, ?_, hs.2.2.2.2⟩
            · exact generateFood_not_mem rng _ fuel f hfood
            · simp only [List.length_cons] at hlen ⊢
              omega
        · next hnoteat =>
          injection h with h'
          injection h' with _ h''
          subst h''
          have hfoodne : s.food ≠ nextHeadOf head s.direction := by
            intro hfe
            apply hnoteat
            rw [← hfe]
            simp
          have hdrop : ((nextHeadOf head s.direction :: head :: rest).dropLast).length =
              (head :: rest).length := by
            simp [List.length_dropLast]
          refine ⟨?_, ?_, ?_, ?_, hs.2.2.2.2⟩
          · show (nextHeadOf head s.direction :: head :: rest).dropLast ≠ []
            intro hnil
            rw [hnil] at hdrop
            simp at hdrop
          · exact (List.dropLast_sublist _).nodup hnodup
          · intro hmem
            have hmem' := (List.dropLast_sublist _).subset hmem
            rcases List.mem_cons.mp hmem' with hcase | hcase
            · exact hfoodne hcase
            · exact hfoodmem hcase
          · rw [hdrop, hlen]

lemma inv_restart (rng : Nat → Cell) (fuel : Nat) (s s' : GameState)
    (h : restart rng fuel s = some s') : Inv s' := by
  unfold restart at h
  split at h
  · exact absurd h (by simp)
  · next f hfood =>
    injection h with h'
    subst h'
    refine ⟨?_, ?_, generateFood_not_mem rng INITIAL_SNAKE fuel f hfood, ?_, ?_⟩
    · show INITIAL_SNAKE ≠ []
      decide
    · show INITIAL_SNAKE.Nodup
      decide
    · show INITIAL_SNAKE.length = 0 + 3
      decide
    · show IsArrowDir INITIAL_DIRECTION
      decide

/-- Every reachable state satisfies the combined invariant. -/
lemma reachable_inv (s : GameState) (h : Reachable s) : Inv s := by
  induction h with
  | start rng fuel f hf => exact inv_initial f rng fuel hf
  | keydown d s hd _ ih => exact inv_setDirection d s hd ih
  | moveTick rng fuel s r s' _ ht ih => exact inv_tick rng fuel s r s' ih ht
  | restarted rng fuel s s' _ hr _ => exact inv_restart rng fuel s s' hr

/-- The collision condition of the code spelled with list membership, in the
order the spec states it. -/
lemma crashCond_iff (body : List Cell) (nh : Cell) :
    crashCond body nh ↔
      (nh.x < 0 ∨ GRID_SIZE ≤ nh.x ∨ nh.y < 0 ∨ GRID_SIZE ≤ nh.y ∨ nh ∈ body) := by
  unfold crashCond
  rw [occupies_iff]
  tauto

/-- Every cell of the board occurs in the explicit enumeration. -/
lemma fullGrid_covers (c : Cell) (h : InGrid c) : c ∈ fullGrid := by
  obtain ⟨x, y⟩ := c
  obtain ⟨hx0, hx, hy0, hy⟩ := h
  dsimp only at hx0 hx hy0 hy
  simp only [GRID_SIZE] at hx hy
  refine List.mem_map.mpr ⟨x.toNat + 16 * y.toNat, List.mem_range.mpr (by omega), ?_⟩
  simp only [Cell.mk.injEq]
  constructor
  · omega
  · omega

/-! ### Claim theorems -/

/-- C4: `generateFood` never returns an occupied cell, and in every
reachable state — in particular immediately after every tick and every
restart — the food is not an element of the snake. -/
theorem c4_food_not_on_snake :
    (∀ (rng : Nat → Cell) (occupied : List Cell) (fuel : Nat) (c : Cell),
        generateFood rng occupied fuel = some c → c ∉ occupied) ∧
    ∀ s : GameState, Reachable s → s.food ∉ s.snake :=
  ⟨fun rng occupied fuel c h => generateFood_not_mem rng occupied fuel c h,
   fun s h => (reachable_inv s h).2.2.1⟩

/-- Witness for C4 at concrete inputs. -/
theorem c4_food_not_on_snake_witness :
    (⟨0, 0⟩ : Cell) ∉ INITIAL_SNAKE ∧
    (initialState ⟨5, 5⟩).food ∉ (initialState ⟨5, 5⟩).snake :=
  ⟨c4_food_not_on_snake.1 (fun _ => ⟨0, 0⟩) INITIAL_SNAKE 1 ⟨0, 0⟩ (by decide),
   c4_food_not_on_snake.2 (initialState ⟨5, 5⟩)
     (Reachable.start (fun _ => ⟨5, 5⟩) 1 ⟨5, 5⟩ (by decide))⟩

/-- C5: in every state reachable from initialization by any sequence of
keydown events, ticks and restarts, no two cells of the snake are equal. -/
theorem c5_snake_nodup (s : GameState) (h : Reachable s) : s.snake.Nodup :=
  (reachable_inv s h).2.1

/-- Witness for C5 at a concrete reachable state. -/
theorem c5_snake_nodup_witness : (initialState ⟨0, 0⟩).snake.Nodup :=
  c5_snake_nodup (initialState ⟨0, 0⟩)
    (Reachable.start (fun _ => ⟨0, 0⟩) 1 ⟨0, 0⟩ (by decide))

/-- C10: in every reachable state the score equals the snake length minus
the initial length 3. -/
theorem c10_score_tracks_length (s : GameState) (h : Reachable s) :
    s.score = s.snake.length - 3 := by
  have hlen := (reachable_inv s h).2.2.2.1
  omega

/-- Witness for C10 at a concrete reachable state. -/
theorem c10_score_tracks_length_witness :
    (initialState ⟨0, 0⟩).score = (initialState ⟨0, 0⟩).snake.length - 3 :=
  c10_score_tracks_length (initialState ⟨0, 0⟩)
    (Reachable.start (fun _ => ⟨0, 0⟩) 1 ⟨0, 0⟩ (by decide))

/-- C7: in a `GameOver` state, `tick` returns `Noop` with the state
unchanged, and `setDirection` with any direction leaves the state
unchanged; so of the three entry points only `restart` can change a
`GameOver` state. -/
theorem c7_gameOver_frozen (s : GameState) (h : s.gameOver = true) :
    (∀ (rng : Nat → Cell) (fuel : Nat),
      tick rng fuel s = some (TransitionResult.Noop, s)) ∧
    ∀ d : Cell, setDirection d s = s := by
  constructor
  · intro rng fuel
    simp [tick, h]
  · intro d
    simp [setDirection, h]

/-- Witness for C7 at a concrete `GameOver` state. -/
theorem c7_gameOver_frozen_witness :
    tick (fun _ => ⟨0, 0⟩) 1
        { snake := [⟨9, 8⟩, ⟨8, 8⟩, ⟨7, 8⟩], direction := ⟨1, 0⟩,
          food := ⟨0, 0⟩, score := 4, gameOver := true } =
      some (TransitionResult.Noop,
        { snake := [⟨9, 8⟩, ⟨8, 8⟩, ⟨7, 8⟩], direction := ⟨1, 0⟩,
          food := ⟨0, 0⟩, score := 4, gameOver := true }) ∧
    setDirection dirUp
        { snake := [⟨9, 8⟩, ⟨8, 8⟩, ⟨7, 8⟩], direction := ⟨1, 0⟩,
          food := ⟨0, 0⟩, score := 4, gameOver := true } =
      { snake := [⟨9, 8⟩, ⟨8, 8⟩, ⟨7, 8⟩], direction := ⟨1, 0⟩,
        food := ⟨0, 0⟩, score := 4, gameOver := true } :=
  ⟨(c7_gameOver_frozen _ rfl).1 (fun _ => ⟨0, 0⟩) 1,
   (c7_gameOver_frozen _ rfl).2 dirUp⟩

/-- C8: a successful `restart`, from any state, yields a running state with
score 0, the documented initial snake and direction, and food generated by
the placement algorithm over the initial snake — hence off the snake. -/
theorem c8_restart_spec (rng : Nat → Cell) (fuel : Nat) (s s' : GameState)
    (h : restart rng fuel s = some s') :
    s'.gameOver = false ∧ s'.score = 0 ∧ s'.snake = INITIAL_SNAKE ∧
    s'.direction = ⟨1, 0⟩ ∧
    generateFood rng INITIAL_SNAKE fuel = some s'.food ∧
    s'.food ∉ s'.snake := by
  unfold restart at h
  split at h
  · exact absurd h (by simp)
  · next f hfood =>
    injection h with h'
    subst h'
    exact ⟨rfl, rfl, rfl, rfl, hfood,
      generateFood_not_mem rng INITIAL_SNAKE fuel f hfood⟩

/-- Witness for C8: restart from a concrete `GameOver` state. -/
theorem c8_restart_spec_witness :
    (restart (fun _ => ⟨0, 0⟩) 1
        { snake := [⟨9, 8⟩, ⟨8, 8⟩, ⟨7, 8⟩], direction := ⟨1, 0⟩,
          food := ⟨3, 3⟩, score := 4, gameOver := true } =
      some { snake := INITIAL_SNAKE, direction := INITIAL_DIRECTION,
             food := ⟨0, 0⟩, score := 0, gameOver := false }) ∧
    ({ snake := INITIAL_SNAKE, direction := INITIAL_DIRECTION,
       food := ⟨0, 0⟩, score := 0, gameOver := false } : GameState).gameOver = false ∧
    ({ snake := INITIAL_SNAKE, direction := INITIAL_DIRECTION,
       food := ⟨0, 0⟩, score := 0, gameOver := false } : GameState).snake = INITIAL_SNAKE ∧
    ({ snake := INITIAL_SNAKE, direction := INITIAL_DIRECTION,
       food := ⟨0, 0⟩, score := 0, gameOver := false } : GameState).direction = ⟨1, 0⟩ :=
  have happ := c8_restart_spec (fun _ => ⟨0, 0⟩) 1
    { snake := [⟨9, 8⟩, ⟨8, 8⟩, ⟨7, 8⟩], direction := ⟨1, 0⟩,
      food := ⟨3, 3⟩, score := 4, gameOver := true }
    { snake := INITIAL_SNAKE, direction := INITIAL_DIRECTION,
      food := ⟨0, 0⟩, score := 0, gameOver := false } (by decide)
  ⟨by decide, happ.1, happ.2.2.1, happ.2.2.2.1⟩

/-- C1: for a running state, a tick returns `Crashed` exactly when the next
head `head + direction` leaves the 16 × 16 grid or hits a cell of the full
current body (the about-to-vacate tail included). -/
theorem c1_crashed_iff_collision (rng : Nat → Cell) (fuel : Nat)
    (s : GameState) (hrun : s.gameOver = false) (head : Cell)
    (rest : List Cell) (hs : s.snake = head :: rest) :
    (∃ s', tick rng fuel s = some (TransitionResult.Crashed, s')) ↔
      ((nextHeadOf head s.direction).x < 0 ∨
        GRID_SIZE ≤ (nextHeadOf head s.direction).x ∨
        (nextHeadOf head s.direction).y < 0 ∨
        GRID_SIZE ≤ (nextHeadOf head s.direction).y ∨
        nextHeadOf head s.direction ∈ s.snake) := by
  rw [hs, ← crashCond_iff]
  by_cases hc : crashCond (head :: rest) (nextHeadOf head s.direction)
  · refine iff_of_true ⟨{ s with gameOver := true }, ?_⟩ hc
    simp [tick, hrun, hs, hc]
  · refine iff_of_false ?_ hc
    rintro ⟨s', h⟩
    unfold tick at h
    split at h
    · simp at h
    · split at h
      · simp at h
      · next head' rest' heq =>
        rw [hs] at heq
        injection heq with h1 h2
        subst h1
        subst h2
        split at h
        · next hcond => exact hc hcond
        · split at h
          · split at h
            · simp at h
            · simp at h
          · simp at h

/-- Witness for C1: the boundary crash at head `(15, 8)` moving right. -/
theorem c1_crashed_iff_collision_witness :
    (∃ s', tick (fun _ => ⟨0, 0⟩) 1
        { snake := [⟨15, 8⟩, ⟨14, 8⟩, ⟨13, 8⟩], direction := ⟨1, 0⟩,
          food := ⟨2, 2⟩, score := 5, gameOver := false } =
      some (TransitionResult.Crashed, s')) ↔
      ((nextHeadOf ⟨15, 8⟩ ⟨1, 0⟩).x < 0 ∨
        GRID_SIZE ≤ (nextHeadOf ⟨15, 8⟩ ⟨1, 0⟩).x ∨
        (nextHeadOf ⟨15, 8⟩ ⟨1, 0⟩).y < 0 ∨
        GRID_SIZE ≤ (nextHeadOf ⟨15, 8⟩ ⟨1, 0⟩).y ∨
        nextHeadOf ⟨15, 8⟩ ⟨1, 0⟩ ∈ [⟨15, 8⟩, ⟨14, 8⟩, ⟨13, 8⟩]) :=
  c1_crashed_iff_collision (fun _ => ⟨0, 0⟩) 1
    { snake := [⟨15, 8⟩, ⟨14, 8⟩, ⟨13, 8⟩], direction := ⟨1, 0⟩,
      food := ⟨2, 2⟩, score := 5, gameOver := false }
    rfl ⟨15, 8⟩ [⟨14, 8⟩, ⟨13, 8⟩] rfl

/-- C3: for a running state, a tick returning `Ate` prepends the next head
(no tail removed), grows the snake by exactly one, increments the score by
exactly one, and recomputes the food over the new snake; a tick returning
`Moved` leaves length, score and food unchanged. -/
theorem c3_growth_law (rng : Nat → Cell) (fuel : Nat) (s : GameState)
    (hrun : s.gameOver = false) :
    (∀ s', tick rng fuel s = some (TransitionResult.Ate, s') →
        s'.snake.length = s.snake.length + 1 ∧
        (∃ nh, s'.snake = nh :: s.snake) ∧
        s'.score = s.score + 1 ∧
        generateFood rng s'.snake fuel = some s'.food) ∧
    ∀ s', tick rng fuel s = some (TransitionResult.Moved, s') →
        s'.snake.length = s.snake.length ∧ s'.score = s.score := by
  constructor
  · intro s' h
    unfold tick at h
    split at h
    · simp at h
    · split at h
      · simp at h
      · next head rest heq =>
        split at h
        · simp at h
        · split at h
          · split at h
            · simp at h
            · next f hfood =>
              injection h with h'
              injection h' with _ h2
              subst h2
              refine ⟨?_, ⟨nextHeadOf head s.direction, ?_⟩, rfl, hfood⟩
              · show (nextHeadOf head s.direction :: head :: rest).length =
                  s.snake.length + 1
                rw [heq]
                simp
              · show nextHeadOf head s.direction :: head :: rest =
                  nextHeadOf head s.direction :: s.snake
                rw [heq]
          · simp at h
  · intro s' h
    unfold tick at h
    split at h
    · simp at h
    · split at h
      · simp at h
      · next head rest heq =>
        split at h
        · simp at h
        · split at h
          · split at h
            · simp at h
            · simp at h
          · injection h with h'
            injection h' with _ h2
            subst h2
            refine ⟨?_, rfl⟩
            show ((nextHeadOf head s.direction :: head :: rest).dropLast).length =
              s.snake.length
            rw [heq]
            simp

/-- Witness for C3: the documented feeding scenario, food at `(9, 8)`. -/
theorem c3_growth_law_witness :
    (GameState.mk [⟨9, 8⟩, ⟨8, 8⟩, ⟨7, 8⟩, ⟨6, 8⟩] ⟨1, 0⟩ ⟨0, 0⟩ 1 false).snake.length =
      (GameState.mk [⟨8, 8⟩, ⟨7, 8⟩, ⟨6, 8⟩] ⟨1, 0⟩ ⟨9, 8⟩ 0 false).snake.length + 1 ∧
    (∃ nh, (GameState.mk [⟨9, 8⟩, ⟨8, 8⟩, ⟨7, 8⟩, ⟨6, 8⟩] ⟨1, 0⟩ ⟨0, 0⟩ 1 false).snake =
      nh :: (GameState.mk [⟨8, 8⟩, ⟨7, 8⟩, ⟨6, 8⟩] ⟨1, 0⟩ ⟨9, 8⟩ 0 false).snake) ∧
    (GameState.mk [⟨9, 8⟩, ⟨8, 8⟩, ⟨7, 8⟩, ⟨6, 8⟩] ⟨1, 0⟩ ⟨0, 0⟩ 1 false).score =
      (GameState.mk [⟨8, 8⟩, ⟨7, 8⟩, ⟨6, 8⟩] ⟨1, 0⟩ ⟨9, 8⟩ 0 false).score + 1 ∧
    generateFood (fun _ => ⟨0, 0⟩)
      (GameState.mk [⟨9, 8⟩, ⟨8, 8⟩, ⟨7, 8⟩, ⟨6, 8⟩] ⟨1, 0⟩ ⟨0, 0⟩ 1 false).snake 1 =
      some (GameState.mk [⟨9, 8⟩, ⟨8, 8⟩, ⟨7, 8⟩, ⟨6, 8⟩] ⟨1, 0⟩ ⟨0, 0⟩ 1 false).food :=
  (c3_growth_law (fun _ => ⟨0, 0⟩) 1
      (GameState.mk [⟨8, 8⟩, ⟨7, 8⟩, ⟨6, 8⟩] ⟨1, 0⟩ ⟨9, 8⟩ 0 false) rfl).1
    (GameState.mk [⟨9, 8⟩, ⟨8, 8⟩, ⟨7, 8⟩, ⟨6, 8⟩] ⟨1, 0⟩ ⟨0, 0⟩ 1 false) (by decide)

/-- C6: a tick that detects a collision flips only `gameOver`, leaving
snake, food and score at their pre-tick values and returning `Crashed`; in
particular the boundary scenario — head `(15, 8)`, direction `(1, 0)` on
the 16 × 16 grid — crashes with everything else unchanged. -/
theorem c6_crash_frame :
    (∀ (rng : Nat → Cell) (fuel : Nat) (s : GameState) (head : Cell)
        (rest : List Cell),
        s.gameOver = false → s.snake = head :: rest →
        crashCond (head :: rest) (nextHeadOf head s.direction) →
        ∃ s', tick rng fuel s = some (TransitionResult.Crashed, s') ∧
          s'.gameOver = true ∧ s'.snake = s.snake ∧ s'.food = s.food ∧
          s'.score = s.score) ∧
    tick (fun _ => ⟨0, 0⟩) 1
        { snake := [⟨15, 8⟩, ⟨14, 8⟩, ⟨13, 8⟩], direction := ⟨1, 0⟩,
          food := ⟨2, 2⟩, score := 5, gameOver := false } =
      some (TransitionResult.Crashed,
        { snake := [⟨15, 8⟩, ⟨14, 8⟩, ⟨13, 8⟩], direction := ⟨1, 0⟩,
          food := ⟨2, 2⟩, score := 5, gameOver := true }) := by
  constructor
  · intro rng fuel s head rest hrun hs hc
    refine ⟨{ s with gameOver := true }, ?_, rfl, rfl, rfl, rfl⟩
    simp [tick, hrun, hs, hc]
  · decide

/-- Witness for C6 applying the general frame property to the boundary
scenario. -/
theorem c6_crash_frame_witness :
    ∃ s', tick (fun _ => ⟨0, 0⟩) 1
        (GameState.mk [⟨15, 8⟩, ⟨14, 8⟩, ⟨13, 8⟩] ⟨1, 0⟩ ⟨2, 2⟩ 5 false) =
      some (TransitionResult.Crashed, s') ∧
      s'.gameOver = true ∧
      s'.snake = (GameState.mk [⟨15, 8⟩, ⟨14, 8⟩, ⟨13, 8⟩] ⟨1, 0⟩ ⟨2, 2⟩ 5 false).snake ∧
      s'.food = (GameState.mk [⟨15, 8⟩, ⟨14, 8⟩, ⟨13, 8⟩] ⟨1, 0⟩ ⟨2, 2⟩ 5 false).food ∧
      s'.score = (GameState.mk [⟨15, 8⟩, ⟨14, 8⟩, ⟨13, 8⟩] ⟨1, 0⟩ ⟨2, 2⟩ 5 false).score :=
  c6_crash_frame.1 (fun _ => ⟨0, 0⟩) 1
    (GameState.mk [⟨15, 8⟩, ⟨14, 8⟩, ⟨13, 8⟩] ⟨1, 0⟩ ⟨2, 2⟩ 5 false)
    ⟨15, 8⟩ [⟨14, 8⟩, ⟨13, 8⟩] rfl rfl (by decide)

/-- C9: whenever some board cell is free of `occupied`, a draw of the
random source makes the reject-and-resample loop of `generateFood` return
a free cell; when `occupied` covers the whole board, the loop returns
within no bound at all — it never terminates. -/
theorem c9_placeFood_termination :
    (∀ occupied : List Cell, (∃ c : Cell, InGrid c ∧ c ∉ occupied) →
        ∃ (rng : Nat → Cell) (fuel : Nat) (c : Cell),
          generateFood rng occupied fuel = some c ∧ c ∉ occupied) ∧
    ∀ occupied : List Cell, (∀ c : Cell, InGrid c → c ∈ occupied) →
      ∀ rng : Nat → Cell, (∀ n, InGrid (rng n)) →
        ∀ fuel, generateFood rng occupied fuel = none := by
  constructor
  · rintro occupied ⟨c, _, hfree⟩
    have hocc : occupies occupied c = false := by
      rw [Bool.eq_false_iff]
      intro htrue
      exact hfree ((occupies_iff _ _).mp htrue)
    refine ⟨fun _ => c, 1, c, ?_, hfree⟩
    simp [generateFood, generateFoodFrom, hocc]
  · intro occupied hcover rng hin fuel
    suffices h : ∀ fuel i, generateFoodFrom rng occupied i fuel = none from
      h fuel 0
    intro fuel
    induction fuel with
    | zero => intro i; rfl
    | succ n ih =>
      intro i
      unfold generateFoodFrom
      rw [if_pos ((occupies_iff _ _).mpr (hcover _ (hin i)))]
      exact ih (i + 1)

/-- Witness for C9: a free cell exists next to the initial snake, and the
loop finds one; over the full board the loop yields nothing for any
bound. -/
theorem c9_placeFood_termination_witness :
    (∃ (rng : Nat → Cell) (fuel : Nat) (c : Cell),
        generateFood rng INITIAL_SNAKE fuel = some c ∧ c ∉ INITIAL_SNAKE) ∧
    generateFood (fun _ => ⟨0, 0⟩) fullGrid 5 = none :=
  ⟨c9_placeFood_termination.1 INITIAL_SNAKE ⟨⟨0, 0⟩, by decide, by decide⟩,
   c9_placeFood_termination.2 fullGrid (fun c hc => fullGrid_covers c hc)
     (fun _ => ⟨0, 0⟩) (fun _ => by show InGrid ⟨0, 0⟩; decide) 5⟩

/-- C2 counterexample: the reversal guard compares against the latest
stored direction, not the direction committed at the preceding tick.  From
the initial state, one tick commits direction `(1, 0)` and reaches the
state below; a keydown to `(0, -1)` is accepted, after which a keydown to
`(-1, 0)` — the exact opposite of the direction the snake moved this tick —
is also accepted, and the following tick commits it, driving the head into
the neck segment `(8, 8)` and crashing. -/
theorem c2_reversal_counterexample :
    Reachable (GameState.mk [⟨9, 8⟩, ⟨8, 8⟩, ⟨7, 8⟩] ⟨1, 0⟩ ⟨0, 0⟩ 0 false) ∧
    (setDirection dirLeft (setDirection dirUp
        (GameState.mk [⟨9, 8⟩, ⟨8, 8⟩, ⟨7, 8⟩] ⟨1, 0⟩ ⟨0, 0⟩ 0 false))).direction =
      ⟨-1, 0⟩ ∧
    tick (fun _ => ⟨0, 0⟩) 1 (setDirection dirLeft (setDirection dirUp
        (GameState.mk [⟨9, 8⟩, ⟨8, 8⟩, ⟨7, 8⟩] ⟨1, 0⟩ ⟨0, 0⟩ 0 false))) =
      some (TransitionResult.Crashed,
        GameState.mk [⟨9, 8⟩, ⟨8, 8⟩, ⟨7, 8⟩] ⟨-1, 0⟩ ⟨0, 0⟩ 0 true) := by
  refine ⟨?_, by decide, by decide⟩
  exact Reachable.moveTick (fun _ => ⟨0, 0⟩) 1 (initialState ⟨0, 0⟩)
    TransitionResult.Moved _
    (Reachable.start (fun _ => ⟨0, 0⟩) 1 ⟨0, 0⟩ (by decide)) (by decide)

/-- C2 amended: a request opposite to the currently *stored* direction is
ignored, so a single `setDirection` call between two consecutive ticks can
never make the committed direction the opposite of the previously
committed one — but two or more calls between ticks can (see the
counterexample). -/
theorem c2_single_request_no_reversal (s : GameState) (d : Cell)
    (hr : Reachable s) (hd : IsArrowDir d) :
    (setDirection d s).direction ≠ ⟨-s.direction.x, -s.direction.y⟩ := by
  have hdir : IsArrowDir s.direction := (reachable_inv s hr).2.2.2.2
  have hnz : s.direction ≠ ⟨-s.direction.x, -s.direction.y⟩ := by
    rcases hdir with h | h | h | h <;> rw [h] <;> decide
  unfold setDirection
  split
  · exact hnz
  · split
    · exact hnz
    · next hneg =>
      show d ≠ _
      intro hde
      apply hneg
      rw [hde]
      exact ⟨rfl, rfl⟩

/-- Witness for the amended C2: one keydown from the initial state cannot
reverse the initial rightward direction. -/
theorem c2_single_request_no_reversal_witness :
    (setDirection dirLeft (initialState ⟨0, 0⟩)).direction ≠
      ⟨-(initialState ⟨0, 0⟩).direction.x, -(initialState ⟨0, 0⟩).direction.y⟩ :=
  c2_single_request_no_reversal (initialState ⟨0, 0⟩) dirLeft
    (Reachable.start (fun _ => ⟨0, 0⟩) 1 ⟨0, 0⟩ (by decide)) (by decide)

end SnakeGame
